import Mathlib

/-!
Verification development for a multi-service prior-authorization backend.

The Lean definitions below are shallow embeddings of the Python sources:

* `Dedup` / `Consumer` — the in-memory dedup cache and the Pub/Sub message
  handler of planner-backend/consumer.py (`InMemoryCache`, `_req_id_for`,
  `_claim_inflight`, `_mark_processed`, `handle_message`).
* `Ingest` — the batch ingestion of
  producerConsumer/app/services/sequential_batch_service.py
  (`SequentialBatchService.ingest_batch`).
* `SSE` — the per-request log streaming endpoint of
  producerConsumer/app/api/sse_and_consumer.py (`stream_logs_by_request`).
* `Display` — the session process supervision of
  browser-use-serverless/app/services/displayAllocation.py
  (`cleanup_session_processes`, `create_browser_session`).
* `Routers` — the pooled and single-session `POST /sessions` handlers of
  browser-agent/app/routers/sessions.py and
  browser-use-serverless/app/routers/sessions.py.
* `Mongo` — the read-boundary status mapping of
  producerConsumer/app/services/mongodb_service.py
  (`map_status_for_frontend`, `get_all_request_progress_for_dashboard`).

Stateful code is embedded as explicit state passing; externally visible side
effects (planner POSTs, broker publishes, process signals, emitted SSE
events) are recorded in explicit traces.
-/

namespace Dedup

/-- Association-list update mirroring a Python dict assignment: the new
binding shadows and removes any previous binding of the same key. -/
def setKV {α : Type} (l : List (String × α)) (k : String) (v : α) :
    List (String × α) :=
  (k, v) :: l.filter (fun p => p.1 != k)

/-- Association-list deletion mirroring a Python dict `pop`. -/
def delKV {α : Type} (l : List (String × α)) (k : String) :
    List (String × α) :=
  l.filter (fun p => p.1 != k)

/-- The consumer's `InMemoryCache`: a value store plus per-key expiry
times (seconds).  Embeds consumer.py lines 15–54. -/
structure InMemoryCache where
  data : List (String × String)
  expiry : List (String × Nat)
deriving Repr, DecidableEq

/-- The cache at process start: both dicts empty. -/
def emptyCache : InMemoryCache := { data := [], expiry := [] }

/-- Embeds `InMemoryCache._is_expired`: a key is expired when it has an
expiry time strictly below the current time. -/
def isExpired (c : InMemoryCache) (k : String) (now : Nat) : Bool :=
  match c.expiry.lookup k with
  | some e => decide (e < now)
  | none => false

/-- Embeds `InMemoryCache.get`: `None` for expired keys, else the stored
value. -/
def cacheGet (c : InMemoryCache) (k : String) (now : Nat) : Option String :=
  if isExpired c k now then none else c.data.lookup k

/-- Embeds `InMemoryCache.set(key, value, nx=True, ex=ttl)`: fails when a
live (non-expired) binding exists, otherwise stores the value with expiry
`now + ex` and reports success. -/
def cacheSetNxEx (c : InMemoryCache) (k v : String) (ex : Nat) (now : Nat) :
    InMemoryCache × Bool :=
  if (c.data.lookup k).isSome && !(isExpired c k now) then (c, false)
  else ({ data := setKV c.data k v, expiry := setKV c.expiry k (now + ex) }, true)

/-- Embeds `InMemoryCache.setex(key, ttl, value)`. -/
def cacheSetEx (c : InMemoryCache) (k : String) (ttl : Nat) (v : String)
    (now : Nat) : InMemoryCache :=
  { data := setKV c.data k v, expiry := setKV c.expiry k (now + ttl) }

/-- Embeds `InMemoryCache.delete(key)`. -/
def cacheDelete (c : InMemoryCache) (k : String) : InMemoryCache :=
  { data := delKV c.data k, expiry := delKV c.expiry k }

end Dedup

namespace Consumer

open Dedup

/-- Default `DEDUP_TTL_SECONDS` (consumer.py line 68): 24h for processed keys. -/
def DEDUP_TTL : Nat := 86400

/-- Default `INFLIGHT_TTL_SECONDS` (consumer.py line 69): 10m inflight lock. -/
def INFLIGHT_TTL : Nat := 600

/-- The JSON body of a work message as decoded by `handle_message`
(consumer.py lines 127–132): the three fields it projects out.  `none`
for a field models the key being absent from the JSON object. -/
structure DecodedBody where
  request_id : Option String
  payload : Option String
  batch_id : Option String
deriving Repr, DecidableEq

/-- A delivered Pub/Sub message: broker-assigned id, publisher attributes,
and the decode result of its data (`none` models malformed JSON). -/
structure PubSubMessage where
  message_id : String
  attributes : List (String × String)
  body : Option DecodedBody
deriving Repr, DecidableEq

/-- Embeds `_req_id_for` (consumer.py lines 91–93): the `req_id` attribute
when present and truthy (Python `or` treats the empty string as falsy),
else the broker message id. -/
def reqIdFor (m : PubSubMessage) : String :=
  match m.attributes.lookup "req_id" with
  | some s => if s = "" then m.message_id else s
  | none => m.message_id

/-- The payload POSTed to the planner (consumer.py lines 128–132):
`request_id`, `patient_data` and `batch_id` projected from the decoded
body (with `none` standing for the empty-object defaults). -/
structure PlannerPayload where
  request_id : Option String
  patient_data : Option String
  batch_id : Option String
deriving Repr, DecidableEq

/-- Externally visible actions of one `handle_message` run, in order:
a POST to the planner, setting the processed marker, acking the message,
and releasing the inflight lock. -/
inductive Action where
  | post (payload : PlannerPayload)
  | markProcessed (key : String)
  | ack
  | clearInflight (key : String)
deriving Repr, DecidableEq

/-- Embeds `handle_message` (consumer.py lines 115–173) as a function of
the cache state, the delivered message, the current time, and the planner
outcome (`some status` for an HTTP response, `none` for a raised
network/timeout/other exception).  Returns the new cache state and the
ordered trace of externally visible actions. -/
def handle_message (c : InMemoryCache) (m : PubSubMessage) (now : Nat)
    (plannerStatus : Option Nat) : InMemoryCache × List Action :=
  let req_id := reqIdFor m
  match m.body with
  | none => (c, [Action.ack])
  | some data =>
    let payload : PlannerPayload :=
      { request_id := data.request_id
        patient_data := data.payload
        batch_id := data.batch_id }
    let processedKey := "processed:" ++ req_id
    let inflightKey := "inflight:" ++ req_id
    if (cacheGet c processedKey now).isSome then
      (c, [Action.ack])
    else
      let claimRes := cacheSetNxEx c inflightKey "1" INFLIGHT_TTL now
      if !claimRes.2 then
        (claimRes.1, [Action.ack])
      else
        match plannerStatus with
        | some status =>
          if 200 ≤ status ∧ status < 300 then
            let c2 := cacheSetEx claimRes.1 processedKey DEDUP_TTL "processed" now
            (cacheDelete c2 inflightKey,
             [Action.post payload, Action.markProcessed processedKey,
              Action.ack, Action.clearInflight inflightKey])
          else
            (cacheDelete claimRes.1 inflightKey,
             [Action.post payload, Action.ack, Action.clearInflight inflightKey])
        | none =>
          (cacheDelete claimRes.1 inflightKey,
           [Action.post payload, Action.ack, Action.clearInflight inflightKey])

/-- Counts the planner POSTs in an action trace. -/
def countPosts (tr : List Action) : Nat :=
  (tr.filter (fun a => match a with | Action.post _ => true | _ => false)).length

end Consumer

namespace Ingest

/-- A prior-authorization payload with the fields `ingest_batch` projects
out of each element of `requests` (sequential_batch_service.py
lines 122–160).  Optional fields are those accessed with `.get`. -/
structure Payload where
  vendorname : Option String
  patientfirstname : String
  patientlastname : String
  patientdateofbirth : String
  appointmentid : String
  personnumber : Option String
  appointmentdate : Option String
  clientspecialty : Option String
deriving Repr, DecidableEq

/-- Modelled from the spec: the `RequestStatus` enumeration of
app/models/prior_auth/request_progress.py, a file absent from the sources
(only its importers are present).  The spec gives the Request statuses
Created, Queued, Running (in progress), UserActionRequired, Completed,
Failed. -/
inductive RequestStatus where
  | created
  | queued
  | in_progress
  | user_action_required
  | completed
  | failed
deriving Repr, DecidableEq

/-- Modelled from the spec: the `VendorName` enumeration values of
app/models/prior_auth/vendor_enum.py, a file absent from the sources; the
spec's scenarios name the vendors Evicore and Cohere. -/
def knownVendors : List String := ["Evicore", "Cohere"]

/-- Python's `str.upper()` on the character sequence of a string (vendor
names are ASCII). -/
def pyUpper (s : String) : String := String.mk (s.data.map Char.toUpper)

/-- Python's `str.strip()`: drop leading and trailing whitespace. -/
def pyStrip (s : String) : String :=
  String.mk
    (((s.data.dropWhile Char.isWhitespace).reverse.dropWhile
        Char.isWhitespace).reverse)

/-- Embeds `_extract_vendor` (sequential_batch_service.py lines 39–76)
specialized to the flat payload model: a truthy top-level `vendorname` is
stripped, upper-cased and normalized against the known vendor names;
anything else is recorded as UNKNOWN. -/
def extract_vendor (p : Payload) : String :=
  match p.vendorname with
  | some raw =>
      if raw = "" then "UNKNOWN"
      else
        let value := pyUpper (pyStrip raw)
        match knownVendors.find? (fun v => pyUpper v == value) with
        | some v => v
        | none => value
  | none => "UNKNOWN"

/-- A concrete payload used to instantiate theorems at concrete inputs. -/
def samplePayload : Payload :=
  { vendorname := some "Evicore"
    patientfirstname := "Ann"
    patientlastname := "Lee"
    patientdateofbirth := "1990-01-01"
    appointmentid := "ap1"
    personnumber := none
    appointmentdate := none
    clientspecialty := none }

/-- A document of the `batch_requests` collection as inserted by
`ingest_batch` (sequential_batch_service.py lines 145–161).  Note the
source stringifies `sequence_no` and `total_count`. -/
structure RequestRow where
  batch_id : String
  sequence_no : String
  total_count : String
  request_id : String
  patient_name : String
  dob : String
  appointment_id : String
  person_no : Option String
  date_of_service : Option String
  visit_reason : String
  specialty : Option String
  vendor : String
  agent_type : String
deriving Repr, DecidableEq

/-- The `batch_requests` document built for the 0-based payload index `i`. -/
def requestRowOf (batch_id : String) (total i : Nat) (rid : String)
    (p : Payload) : RequestRow :=
  { batch_id := batch_id
    sequence_no := toString (i + 1)
    total_count := toString total
    request_id := rid
    patient_name := p.patientfirstname ++ " " ++ p.patientlastname
    dob := p.patientdateofbirth
    appointment_id := p.appointmentid
    person_no := p.personnumber
    date_of_service := p.appointmentdate
    visit_reason := "Office Visit"
    specialty := p.clientspecialty
    vendor := extract_vendor p
    agent_type := "prior_auth" }

/-- The JSON body of a published work message (`message_data`,
sequential_batch_service.py lines 126–133). -/
structure WorkMessage where
  batch_id : String
  sequence_no : Nat
  request_id : String
  total_count : Nat
  vendor : String
  payload : Payload
deriving Repr, DecidableEq

/-- The publisher attributes of a work message (`attributes`,
sequential_batch_service.py lines 135–141), in source order. -/
def messageAttributes (batch_id : String) (seqNo total : Nat)
    (vendor : String) : List (String × String) :=
  [("batch_id", batch_id),
   ("sequence_no", toString seqNo),
   ("total_count", toString total),
   ("vendor", vendor),
   ("agent_type", "prior_auth")]

/-- Externally visible steps of `ingest_batch`, in program order: document
inserts, broker publishes, per-message ack waits (`future.result()`), and
the final batch-status update. -/
inductive IngestEvent where
  | insertBatchMetadata (batch_id status : String)
  | insertRequestRow (row : RequestRow)
  | insertLegacyStatus (batch_id request_id status : String)
  | insertProgress (request_id : String) (status : RequestStatus)
  | insertManualAction (request_id : String)
  | publish (msg : WorkMessage) (attrs : List (String × String))
  | awaitAck (seqNo : Nat)
  | ackFailed (seqNo : Nat)
  | setBatchStatus (batch_id status : String)
deriving Repr, DecidableEq

/-- One iteration of the `for i, payload in enumerate(requests)` loop
(sequential_batch_service.py lines 122–192): the four inserts followed by
the publish of the message with its attributes. -/
def perPayloadEvents (batch_id : String) (total i : Nat) (rid : String)
    (p : Payload) : List IngestEvent :=
  let vendor := extract_vendor p
  [IngestEvent.insertRequestRow (requestRowOf batch_id total i rid p),
   IngestEvent.insertLegacyStatus batch_id rid "queued",
   IngestEvent.insertProgress rid RequestStatus.created,
   IngestEvent.insertManualAction rid,
   IngestEvent.publish
     { batch_id := batch_id, sequence_no := i + 1, request_id := rid
       total_count := total, vendor := vendor, payload := p }
     (messageAttributes batch_id (i + 1) total vendor)]

/-- The enumerate loop over the payloads; `ids i` is the `uuid.uuid4()`
drawn for the payload at 0-based index `i`. -/
def ingestLoop (batch_id : String) (ids : Nat → String) (total : Nat) :
    Nat → List Payload → List IngestEvent
  | _, [] => []
  | i, p :: rest =>
      perPayloadEvents batch_id total i (ids i) p
        ++ ingestLoop batch_id ids total (i + 1) rest

/-- The `for future in publish_futures: future.result()` loop
(sequential_batch_service.py lines 196–197) over messages `i, i+1, …`
while `k` futures remain; `acks j` tells whether the broker acknowledged
message `j`.  A failed `result()` raises, aborting the loop.  Returns the
ack-wait events and whether all futures succeeded. -/
def resultLoop (acks : Nat → Bool) : Nat → Nat → List IngestEvent × Bool
  | _, 0 => ([], true)
  | i, k + 1 =>
      if acks i then
        let r := resultLoop acks (i + 1) k
        (IngestEvent.awaitAck i :: r.1, r.2)
      else ([IngestEvent.ackFailed i], false)

/-- Embeds `SequentialBatchService.ingest_batch` (sequential_batch_service.py
lines 93–219) as the ordered trace of its externally visible steps:
insert batch metadata as pending_publish, run the per-payload loop, await
every publish future, then set the batch status to published — or, when a
`future.result()` raises, to publish_failed in the except handler. -/
def ingest_batch (batch_id : String) (ids : Nat → String)
    (acks : Nat → Bool) (requests : List Payload) : List IngestEvent :=
  let total := requests.length
  let ackRes := resultLoop acks 1 total
  IngestEvent.insertBatchMetadata batch_id "pending_publish"
    :: ingestLoop batch_id ids total 0 requests
    ++ ackRes.1
    ++ [IngestEvent.setBatchStatus batch_id
          (if ackRes.2 then "published" else "publish_failed")]

/-- The `batch_requests` rows inserted along a trace, in insert order. -/
def requestRowsOf (tr : List IngestEvent) : List RequestRow :=
  tr.filterMap (fun e => match e with
    | IngestEvent.insertRequestRow r => some r
    | _ => none)

/-- The RequestProgress upserts along a trace, in order. -/
def progressInsertsOf (tr : List IngestEvent) :
    List (String × RequestStatus) :=
  tr.filterMap (fun e => match e with
    | IngestEvent.insertProgress rid st => some (rid, st)
    | _ => none)

/-- The published messages along a trace, in publish order. -/
def publishedOf (tr : List IngestEvent) :
    List (WorkMessage × List (String × String)) :=
  tr.filterMap (fun e => match e with
    | IngestEvent.publish m a => some (m, a)
    | _ => none)

end Ingest

namespace SSE

/-- The raw data of one Redis pub/sub frame as the endpoint inspects it
(sse_and_consumer.py lines 166–203): either a JSON object (the fields the
endpoint projects, plus the raw text used as the `msg` default) or plain
text that fails JSON parsing. -/
inductive RawData where
  | jsonObj (raw : String) (msg : Option String) (agent_name : Option String)
      (request_id : Option String) (timestamp : Option Nat)
      (source : Option String)
  | plainText (raw : String)
deriving Repr, DecidableEq

/-- One frame returned by `pubsub.get_message`: its `type` field (only
frames of type `message` carry channel data; the initial frame after a
subscribe has type `subscribe`) and its data. -/
structure PubSubFrame where
  mtype : String
  data : RawData
deriving Repr, DecidableEq

/-- The `data` object of an emitted `log` SSE event
(sse_and_consumer.py lines 173–203).  `timestamp` is `none` in the
plain-text branch, whose data object carries no timestamp field. -/
structure LogEventData where
  level : String
  message : String
  source : String
  request_id : String
  timestamp : Option Nat
  log_source : String
deriving Repr, DecidableEq

/-- The SSE events the endpoint can emit (sse_and_consumer.py
lines 122–245): the initial connected event, the subscription status
event, wrapped log events, heartbeats, and error events. -/
inductive SSEEvent where
  | connected (request_id : String)
  | statusEvent (channel : String)
  | log (data : LogEventData)
  | heartbeat
  | errorEvent (message : String)
deriving Repr, DecidableEq

/-- Builds the `log` event data for one pub/sub frame, mirroring the JSON
and plain-text branches of the endpoint; `now` is the timestamp the JSON
branch defaults to when the record carries none. -/
def logEventOf (request_id : String) (now : Nat) : RawData → LogEventData
  | RawData.jsonObj raw msg agent rid ts src =>
      { level := "INFO"
        message := msg.getD raw
        source := agent.getD "browser-agent"
        request_id := rid.getD request_id
        timestamp := some (ts.getD now)
        log_source := src.getD "logger" }
  | RawData.plainText raw =>
      { level := "INFO"
        message := raw
        source := "browser-agent"
        request_id := request_id
        timestamp := none
        log_source := "text" }

/-- The polling loop of the endpoint's event generator: each list element
is the result of one `pubsub.get_message(timeout=5.0)` call (`none` on
timeout), and the list ends when the client disconnects.  A frame of type
`message` yields one `log` event; any other frame yields nothing; a
timeout yields one heartbeat. -/
def streamLoop (request_id : String) (now : Nat) :
    List (Option PubSubFrame) → List SSEEvent
  | [] => []
  | poll :: rest =>
      match poll with
      | some f =>
          if f.mtype = "message" then
            SSEEvent.log (logEventOf request_id now f.data)
              :: streamLoop request_id now rest
          else streamLoop request_id now rest
      | none => SSEEvent.heartbeat :: streamLoop request_id now rest

/-- Embeds the event generator of `stream_logs_by_request`
(sse_and_consumer.py lines 110–245): a connected event, then a status
event announcing the subscription to the pub/sub channel
`browser_use_logs:{request_id}`, then the polling loop over whatever the
pub/sub subscription delivers.  The generator never issues a stream read;
its output is a function of the pub/sub frames alone, so records already
sitting in the stream when the client connects cannot appear in it. -/
def stream_logs_by_request (request_id : String) (now : Nat)
    (polls : List (Option PubSubFrame)) : List SSEEvent :=
  SSEEvent.connected request_id
    :: SSEEvent.statusEvent ("browser_use_logs:" ++ request_id)
    :: streamLoop request_id now polls

/-- The data carried by the pub/sub frames of type `message` among the
polls, in arrival order: exactly the channel messages published after the
subscription was established. -/
def liveMessages (polls : List (Option PubSubFrame)) : List RawData :=
  polls.filterMap (fun p => match p with
    | some f => if f.mtype = "message" then some f.data else none
    | none => none)

/-- The data of the `log` events of an SSE output, in emission order. -/
def logsOf (evs : List SSEEvent) : List LogEventData :=
  evs.filterMap (fun e => match e with
    | SSEEvent.log d => some d
    | _ => none)

/-- The number of heartbeat events of an SSE output. -/
def heartbeatCount (evs : List SSEEvent) : Nat :=
  (evs.filter (fun e => match e with
    | SSEEvent.heartbeat => true
    | _ => false)).length

/-- The claimed replay behaviour, written from the spec's words for
comparison with the code: opening the endpoint after `history` has been
appended to the stream emits the connected event, then the historical
records as log events in append order, then one heartbeat per empty poll. -/
def ReplayBehaviour (request_id : String) (now : Nat)
    (history : List RawData) (polls : List (Option PubSubFrame)) : Prop :=
  stream_logs_by_request request_id now polls =
    SSEEvent.connected request_id
      :: history.map (fun r => SSEEvent.log (logEventOf request_id now r))
      ++ List.replicate (heartbeatCount (streamLoop request_id now polls))
           SSEEvent.heartbeat

end SSE

namespace Display

/-- A recorded child process handle of a session (an element of
`SESSION_PROCESSES[session_id]`, in spawn order): its pid, whether it is
still running when cleanup starts (`proc.poll() is None`), and whether it
exits within the 2-second grace period after `terminate()`. -/
structure Proc where
  pid : Nat
  alive : Bool
  exitsOnTerm : Bool
deriving Repr, DecidableEq

/-- Externally visible steps of `cleanup_session_processes`, in order. -/
inductive CleanupEvent where
  | terminate (pid : Nat)
  | sleep (secs : Nat)
  | kill (pid : Nat)
  | patternKills (session_id : String)
deriving Repr, DecidableEq

/-- A process is still running after the grace sleep exactly when it was
running at cleanup start and did not exit on `terminate()`. -/
def stillRunning (p : Proc) : Bool := p.alive && !p.exitsOnTerm

/-- Embeds `cleanup_session_processes` (displayAllocation.py
lines 112–164) for a session whose recorded handle list is `procs` (in
spawn order): terminate every running process, iterating the list in its
recorded order; sleep 2 seconds; force-kill every process still running,
again in list order.  The trailing best-effort pattern-kill block
(lines 136–162) is abstracted as one event, since it acts by process-name
patterns rather than on the recorded handles. -/
def cleanup_session_processes (session_id : String) (procs : List Proc) :
    List CleanupEvent :=
  ((procs.filter (fun p => p.alive)).map (fun p => CleanupEvent.terminate p.pid))
    ++ [CleanupEvent.sleep 2]
    ++ ((procs.filter stillRunning).map (fun p => CleanupEvent.kill p.pid))
    ++ [CleanupEvent.patternKills session_id]

/-- The pids receiving SIGTERM along a cleanup trace, in signal order. -/
def terminatedPids (tr : List CleanupEvent) : List Nat :=
  tr.filterMap (fun e => match e with
    | CleanupEvent.terminate p => some p
    | _ => none)

/-- The pids receiving SIGKILL along a cleanup trace, in signal order. -/
def killedPids (tr : List CleanupEvent) : List Nat :=
  tr.filterMap (fun e => match e with
    | CleanupEvent.kill p => some p
    | _ => none)

/-- The claimed termination order, written from the spec's words for
comparison with the code: child processes are terminated in reverse spawn
order. -/
def ReverseOrderTermination (session_id : String) (procs : List Proc) : Prop :=
  terminatedPids (cleanup_session_processes session_id procs) =
    ((procs.reverse.filter (fun p => p.alive)).map (fun p => p.pid))

/-- Externally visible steps of `create_browser_session`, in order. -/
inductive SessionEvent where
  | startVnc (display_num vnc_port : Nat)
  | startProxy (vnc_port web_port : Nat)
  | setDisplayEnv (display : String)
  | launchAttempt (attempt : Nat) (display : String)
  | backoffSleep (secs : Nat)
  | restoreDisplayEnv
  | cleanup (session_id : String)
deriving Repr, DecidableEq

/-- The result of one `create_browser_session` call: whether a browser
session was returned, the ordered step trace, and the value of the
process-wide DISPLAY variable after the call (`none` = unset). -/
structure SessionRun where
  ok : Bool
  events : List SessionEvent
  env : Option String
deriving Repr, DecidableEq

/-- Embeds the `finally` block of `create_browser_session`
(displayAllocation.py lines 261–266): restore the saved DISPLAY value, or
delete the variable when it was originally unset. -/
def restoreEnv (original cur : Option String) : Option String :=
  match original with
  | some v => some v
  | none =>
      match cur with
      | some _ => none
      | none => none

/-- The Chrome attach retry loop (displayAllocation.py lines 223–260):
`attempt` is the current 1-based attempt and `retriesLeft` the attempts
still allowed; `attach k` tells whether attempt `k` succeeds.  A failed
non-final attempt sleeps `2 * attempt` seconds; the final failure invokes
cleanup before raising. -/
def attemptLoop (attach : Nat → Bool) (session_id display : String) :
    Nat → Nat → Bool × List SessionEvent
  | _, 0 => (false, [])
  | attempt, r + 1 =>
      if attach attempt then
        (true, [SessionEvent.launchAttempt attempt display])
      else if r = 0 then
        (false, [SessionEvent.launchAttempt attempt display,
                 SessionEvent.cleanup session_id])
      else
        let rest := attemptLoop attach session_id display (attempt + 1) r
        (rest.1, SessionEvent.launchAttempt attempt display
           :: SessionEvent.backoffSleep (2 * attempt) :: rest.2)

/-- Embeds `create_browser_session` (displayAllocation.py lines 167–271)
as a function of the session parameters, whether the VNC/proxy start
phase succeeds (`vncOk = false` models an exception raised before DISPLAY
is touched), the attach outcome of each attempt, and the initial DISPLAY
value.  Mirrors the source's nesting: outer try/except (cleanup and
re-raise), DISPLAY mutation, inner try with the retry loop, and the
finally block restoring DISPLAY on every exit of the inner try. -/
def create_browser_session (session_id : String)
    (display_num vnc_port web_port : Nat) (vncOk : Bool)
    (attach : Nat → Bool) (env0 : Option String) : SessionRun :=
  let display := ":" ++ toString display_num
  if !vncOk then
    { ok := false, events := [SessionEvent.cleanup session_id], env := env0 }
  else
    let pre := [SessionEvent.startVnc display_num vnc_port,
                SessionEvent.startProxy vnc_port web_port]
    let original := env0
    let env1 : Option String := some display
    let la := attemptLoop attach session_id display 1 3
    let envFinal := restoreEnv original env1
    if la.1 then
      { ok := true
        events := pre ++ SessionEvent.setDisplayEnv display :: la.2
          ++ [SessionEvent.restoreDisplayEnv]
        env := envFinal }
    else
      { ok := false
        events := pre ++ SessionEvent.setDisplayEnv display :: la.2
          ++ [SessionEvent.restoreDisplayEnv, SessionEvent.cleanup session_id]
        env := envFinal }

/-- The number of launch attempts along a session trace. -/
def launchCount (tr : List SessionEvent) : Nat :=
  (tr.filter (fun e => match e with
    | SessionEvent.launchAttempt _ _ => true
    | _ => false)).length

/-- Tests whether a session event touches the DISPLAY environment
variable. -/
def isEnvEvent (e : SessionEvent) : Bool :=
  match e with
  | SessionEvent.setDisplayEnv _ => true
  | SessionEvent.restoreDisplayEnv => true
  | _ => false

end Display

namespace Routers

open Dedup

/-- Base VNC port (constants.py line 11). -/
def BASE_VNC_PORT : Nat := 6080

/-- Base websocket port (constants.py line 12). -/
def BASE_WEB_PORT : Nat := 5080

/-- Base display number (constants.py line 13). -/
def BASE_DISPLAY_NUM : Nat := 101

/-- The fixed pool session name for index `i` (constants.py line 10:
`session_00` … `session_09`). -/
def sessionName (i : Nat) : String :=
  "session_" ++ (if i < 10 then "0" ++ toString i else toString i)

/-- `SESSION_TO_VNC_PORT` (constants.py line 20). -/
def SESSION_TO_VNC_PORT : List (String × Nat) :=
  (List.range 10).map (fun i => (sessionName i, BASE_VNC_PORT + i))

/-- `SESSION_TO_WEB_PORT` (constants.py line 21). -/
def SESSION_TO_WEB_PORT : List (String × Nat) :=
  (List.range 10).map (fun i => (sessionName i, BASE_WEB_PORT + i))

/-- `SESSION_TO_DISPLAY_NUM` (constants.py line 22). -/
def SESSION_TO_DISPLAY_NUM : List (String × Nat) :=
  (List.range 10).map (fun i => (sessionName i, BASE_DISPLAY_NUM + i))

/-- The module-level state the pooled `POST /sessions` handler reads and
writes: `SESSIONS_MAP` plus the used-flag dicts, all keyed as in
constants.py (the used-flag dicts key by the stringified port/display). -/
structure PoolState where
  sessionsMap : List (String × Bool)
  usedVnc : List (String × Bool)
  usedWeb : List (String × Bool)
  usedDisp : List (String × Bool)
deriving Repr, DecidableEq

/-- The pool state at process start: ten named sessions, everything free. -/
def initialPoolState : PoolState :=
  { sessionsMap := (List.range 10).map (fun i => (sessionName i, false))
    usedVnc := (List.range 10).map (fun i => (toString (BASE_VNC_PORT + i), false))
    usedWeb := (List.range 10).map (fun i => (toString (BASE_WEB_PORT + i), false))
    usedDisp := (List.range 10).map (fun i => (toString (BASE_DISPLAY_NUM + i), false)) }

/-- The value a `POST /sessions` handler evaluates to: either the success
dict, or the `(body, status)` pair of an error return / the payload of a
raised HTTPException. -/
inductive CreateResponse where
  | success (session_id : String) (vnc_port web_port display_num : Nat)
  | failure (error : String) (status : Nat)
deriving Repr, DecidableEq

/-- Embeds the pooled `create_session` handler (browser-agent
app/routers/sessions.py lines 11–57) as a function of the module state
and the behaviour of `create_browser_session` (its VNC phase and attach
outcomes): pick the first free session, mark it and its ports used, run
the supervisor, and on any exception free everything again and answer a
500 error.  When no session is free the handler answers the 503 error
body without touching the state. -/
def pooled_create_session (st : PoolState) (vncOk : Bool)
    (attach : Nat → Bool) (env0 : Option String) :
    PoolState × CreateResponse × List Display.SessionEvent :=
  match st.sessionsMap.find? (fun p => !p.2) with
  | none => (st, CreateResponse.failure "No free sessions available" 503, [])
  | some fp =>
      let session_id := fp.1
      let vnc_port := (SESSION_TO_VNC_PORT.lookup session_id).getD 0
      let web_port := (SESSION_TO_WEB_PORT.lookup session_id).getD 0
      let display_num := (SESSION_TO_DISPLAY_NUM.lookup session_id).getD 0
      let st1 : PoolState :=
        { sessionsMap := setKV st.sessionsMap session_id true
          usedVnc := setKV st.usedVnc (toString vnc_port) true
          usedWeb := setKV st.usedWeb (toString web_port) true
          usedDisp := setKV st.usedDisp (toString display_num) true }
      let run := Display.create_browser_session session_id display_num
        vnc_port web_port vncOk attach env0
      if run.ok then
        (st1,
         CreateResponse.success session_id vnc_port web_port display_num,
         run.events)
      else
        let st2 : PoolState :=
          { sessionsMap := setKV st1.sessionsMap session_id false
            usedVnc := setKV st1.usedVnc (toString vnc_port) false
            usedWeb := setKV st1.usedWeb (toString web_port) false
            usedDisp := setKV st1.usedDisp (toString display_num) false }
        (st2, CreateResponse.failure "session start failed" 500, run.events)

/-- Modelled from the spec: `generate_session_id`, which the
single-session router imports from app/utility/constants.py but which is
absent from that file in the sources (only its callers and its test
remain).  The spec says the session-id is a freshly generated 128-bit
random value formatted as four hex groups of four characters
(`xxxx-xxxx-xxxx-xxxx`); its test asserts four dash-separated groups of
four lowercase hex digits.  `r` is the fresh 128-bit random draw; the
first sixteen of its thirty-two hex digits form the four groups.  The
next definitions build that formatting. -/
def hexChar (n : Nat) : Char :=
  if n < 10 then Char.ofNat (48 + n) else Char.ofNat (87 + n)

/-- The `k`-digit big-endian hex rendering of `v` as characters. -/
def hexDigits (k v : Nat) : List Char :=
  (List.range k).map (fun i => hexChar (v / 16 ^ (k - 1 - i) % 16))

/-- Modelled from the spec: the session-id built from the 128-bit random
draw `r` — see `hexChar` above for what is missing from the sources. -/
def generate_session_id (r : Nat) : String :=
  let h := hexDigits 32 (r % 2 ^ 128)
  String.mk (h.take 4) ++ "-" ++ String.mk ((h.drop 4).take 4) ++ "-"
    ++ String.mk ((h.drop 8).take 4) ++ "-" ++ String.mk ((h.drop 12).take 4)

/-- Tests membership in the lowercase hex alphabet (digits `0`-`9` and
letters `a`-`f`). -/
def isHexDigit (c : Char) : Bool :=
  (48 ≤ c.toNat && c.toNat ≤ 57) || (97 ≤ c.toNat && c.toNat ≤ 102)

/-- The `xxxx-xxxx-xxxx-xxxx` shape the session-id test asserts: four
dash-separated groups of four lowercase hex digits. -/
def SessionIdFormat (s : String) : Prop :=
  ∃ a b c d : List Char,
    a.length = 4 ∧ b.length = 4 ∧ c.length = 4 ∧ d.length = 4 ∧
    a.all isHexDigit ∧ b.all isHexDigit ∧ c.all isHexDigit ∧ d.all isHexDigit ∧
    s = String.mk a ++ "-" ++ String.mk b ++ "-" ++ String.mk c ++ "-"
      ++ String.mk d

/-- The module state of the single-session router
(browser-use-serverless app/routers/sessions.py): the current session id
and the per-session mappings it maintains. -/
structure SingleState where
  current : Option String
  sidToVnc : List (String × Nat)
  sidToWeb : List (String × Nat)
  sidToDisp : List (String × Nat)
deriving Repr, DecidableEq

/-- Embeds the single-session `create_session` handler
(browser-use-serverless app/routers/sessions.py lines 28–82): fail with a
503 HTTPException when a session already exists; otherwise draw a fresh
session id, record the fixed slot for it, run the supervisor, and on
failure clear the current session and answer 500. -/
def single_create_session (st : SingleState) (r : Nat) (vncOk : Bool)
    (attach : Nat → Bool) (env0 : Option String) :
    SingleState × CreateResponse :=
  match st.current with
  | some _ =>
      (st, CreateResponse.failure
        "Session is already in use. Only one session is supported." 503)
  | none =>
      let session_id := generate_session_id r
      let st1 : SingleState :=
        { current := some session_id
          sidToVnc := setKV st.sidToVnc session_id BASE_VNC_PORT
          sidToWeb := setKV st.sidToWeb session_id BASE_WEB_PORT
          sidToDisp := setKV st.sidToDisp session_id BASE_DISPLAY_NUM }
      let run := Display.create_browser_session session_id BASE_DISPLAY_NUM
        BASE_VNC_PORT BASE_WEB_PORT vncOk attach env0
      if run.ok then
        (st1, CreateResponse.success session_id BASE_VNC_PORT BASE_WEB_PORT
          BASE_DISPLAY_NUM)
      else
        ({ st1 with current := none },
         CreateResponse.failure "session start failed" 500)

end Routers

namespace Mongo

/-- The `status_mapping` dict of `map_status_for_frontend`
(mongodb_service.py lines 32–41), in source order. -/
def status_mapping : List (String × String) :=
  [("in_progress", "running"),
   ("failed", "failed"),
   ("created", "queued"),
   ("user_action_required", "manual-action"),
   ("completed", "completed"),
   ("succeeded", "completed"),
   ("processing", "running"),
   ("action_needed", "manual-action")]

/-- Python's `str.lower()` on the character sequence of a string (the
statuses involved are ASCII). -/
def pyLower (s : String) : String := String.mk (s.data.map Char.toLower)

/-- Embeds `map_status_for_frontend` (mongodb_service.py lines 28–42):
look the lower-cased status up in the mapping, defaulting to the original
status. -/
def map_status_for_frontend (db_status : String) : String :=
  (status_mapping.lookup (pyLower db_status)).getD db_status

/-- A document of the `requestProgress` collection as the dashboard reads
it; `none` fields model keys absent from the document. -/
structure ProgressDoc where
  requestId : String
  status : Option String
  lastUpdatedAt : Option String
  remarks : Option String
deriving Repr, DecidableEq

/-- The fields of a `batch_requests` document the dashboard projects. -/
structure BatchRequestDoc where
  batch_id : Option String
  patient_name : Option String
  vendor : Option String
deriving Repr, DecidableEq

/-- One formatted dashboard entry (mongodb_service.py lines 272–282). -/
structure DashboardRow where
  request_id : String
  batch_id : String
  patient_name : String
  payer_id : String
  status : String
  current_step : Option String
deriving Repr, DecidableEq

/-- Formats one progress document for the dashboard, mirroring
mongodb_service.py lines 272–282 (a missing status reads as `unknown`;
missing request details read as `Unknown`). -/
def formatDashboardRow (doc : ProgressDoc)
    (details : Option BatchRequestDoc) : DashboardRow :=
  { request_id := doc.requestId
    batch_id := (details.bind (fun d => d.batch_id)).getD "Unknown"
    patient_name := (details.bind (fun d => d.patient_name)).getD "Unknown"
    payer_id := (details.bind (fun d => d.vendor)).getD "Unknown"
    status := map_status_for_frontend (doc.status.getD "unknown")
    current_step := doc.remarks }

/-- Embeds `get_all_request_progress_for_dashboard` (mongodb_service.py
lines 256–289): every progress document is formatted with the batch
request details found for its request id. -/
def get_all_request_progress_for_dashboard (docs : List ProgressDoc)
    (details : String → Option BatchRequestDoc) : List DashboardRow :=
  docs.map (fun d => formatDashboardRow d (details d.requestId))

end Mongo

/-! ## Shared helper lemmas -/

lemma lookup_setKV_self {α : Type} (l : List (String × α)) (k : String)
    (v : α) : (Dedup.setKV l k v).lookup k = some v := by
  simp [Dedup.setKV, List.lookup]

lemma lookup_delKV_ne {α : Type} (l : List (String × α)) (k k' : String)
    (h : k' ≠ k) : (Dedup.delKV l k).lookup k' = l.lookup k' := by
  induction l with
  | nil => rfl
  | cons p t ih =>
      obtain ⟨a, b⟩ := p
      simp only [Dedup.delKV, List.filter_cons] at ih ⊢
      by_cases hp : a = k
      · have h1 : (a != k) = false := by simp [hp]
        have h2 : (k' == a) = false := by
          subst hp
          simpa using h
        simp only [h1, Bool.false_eq_true, if_false, List.lookup, h2]
        exact ih
      · have h1 : (a != k) = true := by simp [hp]
        simp only [h1, if_true, List.lookup]
        by_cases hk : k' = a
        · simp [hk]
        · have h2 : (k' == a) = false := by simpa using hk
          simp only [h2]
          exact ih


lemma terminatedPids_append (a b : List Display.CleanupEvent) :
    Display.terminatedPids (a ++ b) =
      Display.terminatedPids a ++ Display.terminatedPids b := by
  simp [Display.terminatedPids, List.filterMap_append]

lemma killedPids_append (a b : List Display.CleanupEvent) :
    Display.killedPids (a ++ b) =
      Display.killedPids a ++ Display.killedPids b := by
  simp [Display.killedPids, List.filterMap_append]

lemma terminatedPids_map_terminate {α : Type} (f : α → Nat) (l : List α) :
    Display.terminatedPids
      (l.map (fun a => Display.CleanupEvent.terminate (f a))) = l.map f := by
  induction l with
  | nil => rfl
  | cons a t ih =>
      simp only [List.map_cons, Display.terminatedPids, List.filterMap_cons]
        at ih ⊢
      rw [ih]

lemma terminatedPids_map_kill {α : Type} (f : α → Nat) (l : List α) :
    Display.terminatedPids
      (l.map (fun a => Display.CleanupEvent.kill (f a))) = [] := by
  induction l with
  | nil => rfl
  | cons a t ih =>
      simp only [List.map_cons, Display.terminatedPids, List.filterMap_cons]
        at ih ⊢
      exact ih

lemma killedPids_map_kill {α : Type} (f : α → Nat) (l : List α) :
    Display.killedPids
      (l.map (fun a => Display.CleanupEvent.kill (f a))) = l.map f := by
  induction l with
  | nil => rfl
  | cons a t ih =>
      simp only [List.map_cons, Display.killedPids, List.filterMap_cons]
        at ih ⊢
      rw [ih]

lemma killedPids_map_terminate {α : Type} (f : α → Nat) (l : List α) :
    Display.killedPids
      (l.map (fun a => Display.CleanupEvent.terminate (f a))) = [] := by
  induction l with
  | nil => rfl
  | cons a t ih =>
      simp only [List.map_cons, Display.killedPids, List.filterMap_cons]
        at ih ⊢
      exact ih

/-! ## Claim theorems -/

/-- C9: the read-boundary status mapping sends `in_progress` and
`processing` to `running`, `created` to `queued`, `user_action_required`
and `action_needed` to `manual-action`, `completed` and `succeeded` to
`completed`, and `failed` to `failed`, case-insensitively, and leaves
every other status unchanged; the dashboard read applies exactly this
mapping to each stored progress status, so a stored `in_progress` is
reported as `running`. -/
theorem status_mapping_spec :
    (∀ s : String, Mongo.pyLower s = "in_progress" ∨ Mongo.pyLower s = "processing" →
      Mongo.map_status_for_frontend s = "running") ∧
    (∀ s : String, Mongo.pyLower s = "created" →
      Mongo.map_status_for_frontend s = "queued") ∧
    (∀ s : String,
      Mongo.pyLower s = "user_action_required" ∨ Mongo.pyLower s = "action_needed" →
      Mongo.map_status_for_frontend s = "manual-action") ∧
    (∀ s : String, Mongo.pyLower s = "completed" ∨ Mongo.pyLower s = "succeeded" →
      Mongo.map_status_for_frontend s = "completed") ∧
    (∀ s : String, Mongo.pyLower s = "failed" →
      Mongo.map_status_for_frontend s = "failed") ∧
    (∀ s : String, Mongo.pyLower s ∉ Mongo.status_mapping.map Prod.fst →
      Mongo.map_status_for_frontend s = s) ∧
    (∀ (docs : List Mongo.ProgressDoc)
       (details : String → Option Mongo.BatchRequestDoc),
      (Mongo.get_all_request_progress_for_dashboard docs details).map
          (fun row => row.status) =
        docs.map (fun d =>
          Mongo.map_status_for_frontend (d.status.getD "unknown"))) ∧
    (∀ (doc : Mongo.ProgressDoc) (det : Option Mongo.BatchRequestDoc),
      doc.status = some "in_progress" →
      (Mongo.formatDashboardRow doc det).status = "running") := by
  refine ⟨?_, ?_, ?_, ?_, ?_, ?_, ?_, ?_⟩
  · rintro s (h | h) <;> (unfold Mongo.map_status_for_frontend; rw [h]) <;> rfl
  · intro s h; unfold Mongo.map_status_for_frontend; rw [h]; rfl
  · rintro s (h | h) <;> (unfold Mongo.map_status_for_frontend; rw [h]) <;> rfl
  · rintro s (h | h) <;> (unfold Mongo.map_status_for_frontend; rw [h]) <;> rfl
  · intro s h; unfold Mongo.map_status_for_frontend; rw [h]; rfl
  · intro s hmem
    simp only [Mongo.status_mapping, List.map_cons, List.map_nil,
      List.mem_cons, List.not_mem_nil, or_false, not_or] at hmem
    obtain ⟨h1, h2, h3, h4, h5, h6, h7, h8⟩ := hmem
    unfold Mongo.map_status_for_frontend Mongo.status_mapping
    have b1 := beq_eq_false_iff_ne.mpr h1
    have b2 := beq_eq_false_iff_ne.mpr h2
    have b3 := beq_eq_false_iff_ne.mpr h3
    have b4 := beq_eq_false_iff_ne.mpr h4
    have b5 := beq_eq_false_iff_ne.mpr h5
    have b6 := beq_eq_false_iff_ne.mpr h6
    have b7 := beq_eq_false_iff_ne.mpr h7
    have b8 := beq_eq_false_iff_ne.mpr h8
    simp [List.lookup, b1, b2, b3, b4, b5, b6, b7, b8]
  · intro docs details
    simp [Mongo.get_all_request_progress_for_dashboard,
      Mongo.formatDashboardRow]
  · intro doc det h
    simp only [Mongo.formatDashboardRow, h, Option.getD_some]
    rfl

/-- Witness for C9 at concrete inputs: `In_Progress` maps to `running`,
an unmapped status is returned unchanged, and a document stored with
status `in_progress` is formatted with status `running`. -/
theorem status_mapping_spec_witness :
    Mongo.map_status_for_frontend "In_Progress" = "running" ∧
    Mongo.map_status_for_frontend "paused" = "paused" ∧
    (Mongo.formatDashboardRow
      { requestId := "r1", status := some "in_progress",
        lastUpdatedAt := none, remarks := none } none).status = "running" := by
  refine ⟨?_, ?_, ?_⟩
  · exact status_mapping_spec.1 "In_Progress" (Or.inl (by decide))
  · exact status_mapping_spec.2.2.2.2.2.1 "paused" (by decide)
  · exact status_mapping_spec.2.2.2.2.2.2.2
      { requestId := "r1", status := some "in_progress",
        lastUpdatedAt := none, remarks := none } none rfl

/-- C7: in pooled mode, when every session of the fixed pool is in use,
`POST /sessions` answers the error body `No free sessions available` with
status 503 and the module state is left unchanged. -/
theorem pooled_create_pool_exhausted (st : Routers.PoolState)
    (vncOk : Bool) (attach : Nat → Bool) (env0 : Option String)
    (h : ∀ p ∈ st.sessionsMap, p.2 = true) :
    Routers.pooled_create_session st vncOk attach env0 =
      (st, Routers.CreateResponse.failure "No free sessions available" 503,
       []) := by
  have hfind : st.sessionsMap.find? (fun p => !p.2) = none := by
    rw [List.find?_eq_none]
    intro p hp
    simp [h p hp]
  unfold Routers.pooled_create_session
  rw [hfind]

/-- Witness for C7: the pool with all ten sessions in use answers the 503
error and is unchanged. -/
theorem pooled_create_pool_exhausted_witness :
    Routers.pooled_create_session
        { sessionsMap :=
            (List.range 10).map (fun i => (Routers.sessionName i, true))
          usedVnc := []
          usedWeb := []
          usedDisp := [] } true (fun _ => true) none =
      ({ sessionsMap :=
            (List.range 10).map (fun i => (Routers.sessionName i, true))
         usedVnc := []
         usedWeb := []
         usedDisp := [] },
       Routers.CreateResponse.failure "No free sessions available" 503,
       []) :=
  pooled_create_pool_exhausted _ true (fun _ => true) none (by decide)

/-- C4 counterexample: for a session with two recorded child processes,
`cleanup_session_processes` does not terminate them in reverse spawn
order — the SIGTERM signals go out in forward (spawn) order. -/
theorem cleanup_reverse_order_counterexample :
    ¬ Display.ReverseOrderTermination "session_00"
      [{ pid := 1, alive := true, exitsOnTerm := true },
       { pid := 2, alive := true, exitsOnTerm := true }] := by
  unfold Display.ReverseOrderTermination
  decide

/-- C4 amended: `cleanup_session_processes` terminates the session's
still-running recorded child processes in forward spawn order (not
reverse), then sleeps a fixed 2 seconds, then force-kills exactly the
processes still running after the grace period, again in spawn order;
every kill happens after the sleep and every terminate before it. -/
theorem cleanup_session_amended (sid : String) (procs : List Display.Proc) :
    Display.terminatedPids (Display.cleanup_session_processes sid procs) =
      (procs.filter (fun p => p.alive)).map (fun p => p.pid) ∧
    Display.killedPids (Display.cleanup_session_processes sid procs) =
      (procs.filter Display.stillRunning).map (fun p => p.pid) ∧
    ∃ pre post,
      Display.cleanup_session_processes sid procs =
        pre ++ Display.CleanupEvent.sleep 2 :: post ∧
      Display.killedPids pre = [] ∧
      Display.terminatedPids post = [] := by
  refine ⟨?_, ?_,
    (procs.filter (fun p => p.alive)).map
      (fun p => Display.CleanupEvent.terminate p.pid),
    (procs.filter Display.stillRunning).map
      (fun p => Display.CleanupEvent.kill p.pid)
      ++ [Display.CleanupEvent.patternKills sid], ?_, ?_, ?_⟩
  · rw [Display.cleanup_session_processes, terminatedPids_append,
      terminatedPids_append, terminatedPids_append,
      terminatedPids_map_terminate, terminatedPids_map_kill]
    simp [Display.terminatedPids]
  · rw [Display.cleanup_session_processes, killedPids_append,
      killedPids_append, killedPids_append,
      killedPids_map_terminate, killedPids_map_kill]
    simp [Display.killedPids]
  · simp [Display.cleanup_session_processes]
  · rw [killedPids_map_terminate]
  · rw [terminatedPids_append, terminatedPids_map_kill]
    rfl


lemma logsOf_streamLoop (request_id : String) (now : Nat) :
    ∀ polls, SSE.logsOf (SSE.streamLoop request_id now polls) =
      (SSE.liveMessages polls).map (SSE.logEventOf request_id now) := by
  intro polls
  induction polls with
  | nil => rfl
  | cons p rest ih =>
      cases p with
      | none =>
          simp only [SSE.streamLoop, SSE.logsOf, SSE.liveMessages,
            List.filterMap_cons] at ih ⊢
          exact ih
      | some f =>
          by_cases hm : f.mtype = "message"
          · simp only [SSE.streamLoop, hm, if_true, SSE.logsOf,
              SSE.liveMessages, List.filterMap_cons, List.map_cons] at ih ⊢
            rw [ih]
          · simp only [SSE.streamLoop, hm, if_false, SSE.logsOf,
              SSE.liveMessages, List.filterMap_cons] at ih ⊢
            exact ih

lemma heartbeats_streamLoop (request_id : String) (now : Nat) :
    ∀ polls, SSE.heartbeatCount (SSE.streamLoop request_id now polls) =
      (polls.filter (fun p => p.isNone)).length := by
  intro polls
  induction polls with
  | nil => rfl
  | cons p rest ih =>
      cases p with
      | none =>
          simp only [SSE.streamLoop, SSE.heartbeatCount, List.filter_cons]
            at ih ⊢
          simp only [List.filter, List.length_cons, Option.isNone_none,
            if_true]
          rw [ih]
      | some f =>
          by_cases hm : f.mtype = "message" <;>
            (simp only [SSE.streamLoop, SSE.heartbeatCount, hm, if_true,
               if_false, List.filter_cons] at ih ⊢
             simp only [List.filter, Option.isNone_some]
             exact ih)

/-- C2 counterexample: append one record to the stream, then open the
endpoint with a single empty poll.  The claimed replay output (connected,
then the historical record as a log event, then heartbeats) is not what
the endpoint emits — the endpoint never reads the stream, so the second
event is the subscription status event and the historical record never
appears. -/
theorem sse_replay_counterexample :
    ¬ SSE.ReplayBehaviour "R" 0 [SSE.RawData.plainText "hello"] [none] := by
  unfold SSE.ReplayBehaviour
  decide

/-- C2 amended: opening `/stream-logs/request/R` emits one connected
event and then one subscription status event; historical records already
in the stream are never replayed (the endpoint subscribes to the pub/sub
channel instead of reading the stream from id 0); the log events are
exactly the channel messages delivered after subscribing, in arrival
order, and one heartbeat is emitted per poll that times out with no
message, until the client closes. -/
theorem sse_stream_amended (request_id : String) (now : Nat)
    (polls : List (Option SSE.PubSubFrame)) :
    (SSE.stream_logs_by_request request_id now polls).take 2 =
      [SSE.SSEEvent.connected request_id,
       SSE.SSEEvent.statusEvent ("browser_use_logs:" ++ request_id)] ∧
    SSE.logsOf (SSE.stream_logs_by_request request_id now polls) =
      (SSE.liveMessages polls).map (SSE.logEventOf request_id now) ∧
    SSE.heartbeatCount (SSE.stream_logs_by_request request_id now polls) =
      (polls.filter (fun p => p.isNone)).length := by
  refine ⟨rfl, ?_, ?_⟩
  · simp only [SSE.stream_logs_by_request, SSE.logsOf, List.filterMap_cons]
    exact logsOf_streamLoop request_id now polls
  · simp only [SSE.stream_logs_by_request, SSE.heartbeatCount,
      List.filter_cons]
    exact heartbeats_streamLoop request_id now polls

lemma restoreEnv_restores (o c : Option String) :
    Display.restoreEnv o c = o := by
  cases o <;> cases c <;> rfl

lemma attemptLoop_no_env_events (attach : Nat → Bool) (sid d : String) :
    ∀ r a, (Display.attemptLoop attach sid d a r).2.filter
      Display.isEnvEvent = [] := by
  intro r
  induction r with
  | zero => intro a; rfl
  | succ n ih =>
      intro a
      by_cases h : attach a = true
      · simp [Display.attemptLoop, h, Display.isEnvEvent]
      · by_cases hz : n = 0
        · subst hz
          simp [Display.attemptLoop, h, Display.isEnvEvent]
        · simp [Display.attemptLoop, h, hz, Display.isEnvEvent, ih (a + 1)]

/-- C6: on every exit path of `create_browser_session` — success on any
attempt, attach failure after the retries, or a failure before the
browser phase — the process-wide DISPLAY variable ends with its value
from before the call (including being absent again when it was unset),
and the only DISPLAY mutations are the single set before the browser
launch attempts and the single restore in the finally block. -/
theorem display_env_restored (sid : String) (dn vp wp : Nat)
    (vncOk : Bool) (attach : Nat → Bool) (env0 : Option String) :
    (Display.create_browser_session sid dn vp wp vncOk attach env0).env =
      env0 ∧
    (Display.create_browser_session sid dn vp wp vncOk attach
        env0).events.filter Display.isEnvEvent =
      (if vncOk then
        [Display.SessionEvent.setDisplayEnv (":" ++ toString dn),
         Display.SessionEvent.restoreDisplayEnv]
       else []) := by
  unfold Display.create_browser_session
  cases vncOk with
  | false => simp [Display.isEnvEvent]
  | true =>
      simp only [Bool.not_true, Bool.false_eq_true, if_false, if_true]
      constructor
      · cases h : (Display.attemptLoop attach sid (":" ++ toString dn) 1 3).1
          <;> simp [h, restoreEnv_restores]
      · cases h : (Display.attemptLoop attach sid (":" ++ toString dn) 1 3).1
          <;> simp [h, List.filter_append, Display.isEnvEvent,
                attemptLoop_no_env_events]

lemma publish_not_in_resultLoop (acks : Nat → Bool)
    (m : Ingest.WorkMessage) (a : List (String × String)) :
    ∀ k i, Ingest.IngestEvent.publish m a ∉ (Ingest.resultLoop acks i k).1 := by
  intro k
  induction k with
  | zero => intro i; simp [Ingest.resultLoop]
  | succ n ih =>
      intro i
      by_cases h : acks i = true
      · simp only [Ingest.resultLoop, h, if_true, List.mem_cons]
        rintro (hc | hc)
        · exact absurd hc (by simp)
        · exact ih (i + 1) hc
      · simp [Ingest.resultLoop, h]

lemma publish_in_ingestLoop (b : String) (ids : Nat → String) (total : Nat)
    (m : Ingest.WorkMessage) (a : List (String × String)) :
    ∀ (l : List Ingest.Payload) (i : Nat),
      Ingest.IngestEvent.publish m a ∈ Ingest.ingestLoop b ids total i l →
      ∃ j p, a = Ingest.messageAttributes b (j + 1) total
        (Ingest.extract_vendor p) := by
  intro l
  induction l with
  | nil => intro i h; simp [Ingest.ingestLoop] at h
  | cons p rest ih =>
      intro i h
      simp only [Ingest.ingestLoop, List.mem_append] at h
      cases h with
      | inl h =>
          simp only [Ingest.perPayloadEvents, List.mem_cons,
            List.not_mem_nil, or_false] at h
          rcases h with h | h | h | h | h
          · exact absurd h (by simp)
          · exact absurd h (by simp)
          · exact absurd h (by simp)
          · exact absurd h (by simp)
          · exact ⟨i, p, (Ingest.IngestEvent.publish.inj h).2⟩
      | inr h => exact ih (i + 1) h

lemma messageAttributes_no_req_id (b : String) (s t : Nat) (v : String) :
    (Ingest.messageAttributes b s t v).map Prod.fst =
      ["batch_id", "sequence_no", "total_count", "vendor", "agent_type"] ∧
    (Ingest.messageAttributes b s t v).lookup "req_id" = none :=
  ⟨rfl, rfl⟩

/-- C10: every message the batch ingestor publishes carries exactly the
attributes batch_id, sequence_no, total_count, vendor, agent_type and no
req_id attribute, so the consumer's dedup key `_req_id_for` falls back to
the broker-assigned message id for every such message — deduplication
keys on broker redeliveries, not on the request id in the body. -/
theorem ingest_attributes_no_req_id (batch_id : String)
    (ids : Nat → String) (acks : Nat → Bool)
    (requests : List Ingest.Payload) :
    ∀ m a, Ingest.IngestEvent.publish m a ∈
        Ingest.ingest_batch batch_id ids acks requests →
      a.map Prod.fst =
        ["batch_id", "sequence_no", "total_count", "vendor", "agent_type"] ∧
      a.lookup "req_id" = none ∧
      ∀ (mid : String) (body : Option Consumer.DecodedBody),
        Consumer.reqIdFor
          { message_id := mid, attributes := a, body := body } = mid := by
  intro m a h
  simp only [Ingest.ingest_batch] at h
  have ha : ∃ j p, a = Ingest.messageAttributes batch_id (j + 1)
      requests.length (Ingest.extract_vendor p) := by
    rcases List.mem_cons.mp h with h | h
    · exact absurd h (by simp)
    rcases List.mem_append.mp h with h | h
    · rcases List.mem_append.mp h with h | h
      · exact publish_in_ingestLoop batch_id ids requests.length m a
          requests 0 h
      · exact absurd h (publish_not_in_resultLoop acks m a
          requests.length 1)
    · exact absurd h (by simp)
  obtain ⟨j, p, rfl⟩ := ha
  refine ⟨rfl, rfl, ?_⟩
  intro mid body
  rfl

/-- Witness for C10: the single message published for a one-payload batch
carries the five attributes without req_id, and the consumer keys it by
its broker message id. -/
theorem ingest_attributes_no_req_id_witness :
    (Ingest.IngestEvent.publish
        { batch_id := "b", sequence_no := 1, request_id := "0",
          total_count := 1, vendor := "Evicore",
          payload := Ingest.samplePayload }
        (Ingest.messageAttributes "b" 1 1 "Evicore")
      ∈ Ingest.ingest_batch "b" (fun i => toString i) (fun _ => true)
          [Ingest.samplePayload]) ∧
    (Ingest.messageAttributes "b" 1 1 "Evicore").lookup "req_id" = none ∧
    Consumer.reqIdFor
      { message_id := "mid0",
        attributes := Ingest.messageAttributes "b" 1 1 "Evicore",
        body := none } = "mid0" := by
  have hmem : Ingest.IngestEvent.publish
      { batch_id := "b", sequence_no := 1, request_id := "0",
        total_count := 1, vendor := "Evicore",
        payload := Ingest.samplePayload }
      (Ingest.messageAttributes "b" 1 1 "Evicore")
      ∈ Ingest.ingest_batch "b" (fun i => toString i) (fun _ => true)
          [Ingest.samplePayload] := by decide
  have h := ingest_attributes_no_req_id "b" (fun i => toString i)
    (fun _ => true) [Ingest.samplePayload] _ _ hmem
  exact ⟨hmem, h.2.1, h.2.2 "mid0" none⟩

lemma launchCount_append (a b : List Display.SessionEvent) :
    Display.launchCount (a ++ b) =
      Display.launchCount a + Display.launchCount b := by
  simp [Display.launchCount, List.filter_append]

lemma attemptLoop_launch_bound (attach : Nat → Bool) (sid d : String) :
    ∀ r a, Display.launchCount (Display.attemptLoop attach sid d a r).2 ≤ r := by
  intro r
  induction r with
  | zero => intro a; exact Nat.le_refl 0
  | succ n ih =>
      intro a
      by_cases h : attach a = true
      · simp [Display.attemptLoop, h, Display.launchCount]
      · by_cases hz : n = 0
        · subst hz
          simp [Display.attemptLoop, h, Display.launchCount]
        · have hrec := ih (a + 1)
          simp only [Display.launchCount] at hrec
          simp [Display.attemptLoop, h, hz, Display.launchCount]
          omega

lemma attemptLoop_all_fail (attach : Nat → Bool) (sid d : String)
    (h1 : attach 1 = false) (h2 : attach 2 = false)
    (h3 : attach 3 = false) :
    Display.attemptLoop attach sid d 1 3 =
      (false,
       [Display.SessionEvent.launchAttempt 1 d,
        Display.SessionEvent.backoffSleep 2,
        Display.SessionEvent.launchAttempt 2 d,
        Display.SessionEvent.backoffSleep 4,
        Display.SessionEvent.launchAttempt 3 d,
        Display.SessionEvent.cleanup sid]) := by
  simp [Display.attemptLoop, h1, h2, h3]

/-- C5: the browser launch is retried at most 3 times; when the attach
fails on all three attempts (with back-off sleeps of 2·1 and 2·2 seconds
between attempts) the supervisor cleans the session's processes up and
reports failure, and the pooled `POST /sessions` handler then answers a
500 error with the chosen session flag and its VNC port, web port and
display number all returned to the free set. -/
theorem browser_attach_failure_cleanup :
    (∀ (sid : String) (dn vp wp : Nat) (vncOk : Bool) (attach : Nat → Bool)
       (env0 : Option String),
      Display.launchCount
        (Display.create_browser_session sid dn vp wp vncOk attach
          env0).events ≤ 3) ∧
    (∀ (st : Routers.PoolState) (attach : Nat → Bool)
       (env0 : Option String) (fp : String × Bool),
      st.sessionsMap.find? (fun p => !p.2) = some fp →
      attach 1 = false → attach 2 = false → attach 3 = false →
      (Display.create_browser_session fp.1
          ((Routers.SESSION_TO_DISPLAY_NUM.lookup fp.1).getD 0)
          ((Routers.SESSION_TO_VNC_PORT.lookup fp.1).getD 0)
          ((Routers.SESSION_TO_WEB_PORT.lookup fp.1).getD 0)
          true attach env0).events =
        [Display.SessionEvent.startVnc
            ((Routers.SESSION_TO_DISPLAY_NUM.lookup fp.1).getD 0)
            ((Routers.SESSION_TO_VNC_PORT.lookup fp.1).getD 0),
         Display.SessionEvent.startProxy
            ((Routers.SESSION_TO_VNC_PORT.lookup fp.1).getD 0)
            ((Routers.SESSION_TO_WEB_PORT.lookup fp.1).getD 0),
         Display.SessionEvent.setDisplayEnv
            (":" ++ toString ((Routers.SESSION_TO_DISPLAY_NUM.lookup fp.1).getD 0)),
         Display.SessionEvent.launchAttempt 1
            (":" ++ toString ((Routers.SESSION_TO_DISPLAY_NUM.lookup fp.1).getD 0)),
         Display.SessionEvent.backoffSleep 2,
         Display.SessionEvent.launchAttempt 2
            (":" ++ toString ((Routers.SESSION_TO_DISPLAY_NUM.lookup fp.1).getD 0)),
         Display.SessionEvent.backoffSleep 4,
         Display.SessionEvent.launchAttempt 3
            (":" ++ toString ((Routers.SESSION_TO_DISPLAY_NUM.lookup fp.1).getD 0)),
         Display.SessionEvent.cleanup fp.1,
         Display.SessionEvent.restoreDisplayEnv,
         Display.SessionEvent.cleanup fp.1] ∧
      (Routers.pooled_create_session st true attach env0).2.1 =
        Routers.CreateResponse.failure "session start failed" 500 ∧
      (Routers.pooled_create_session st true attach env0).1.sessionsMap.lookup
          fp.1 = some false ∧
      (Routers.pooled_create_session st true attach env0).1.usedVnc.lookup
          (toString ((Routers.SESSION_TO_VNC_PORT.lookup fp.1).getD 0)) =
        some false ∧
      (Routers.pooled_create_session st true attach env0).1.usedWeb.lookup
          (toString ((Routers.SESSION_TO_WEB_PORT.lookup fp.1).getD 0)) =
        some false ∧
      (Routers.pooled_create_session st true attach env0).1.usedDisp.lookup
          (toString ((Routers.SESSION_TO_DISPLAY_NUM.lookup fp.1).getD 0)) =
        some false) := by
  constructor
  · intro sid dn vp wp vncOk attach env0
    have hb := attemptLoop_launch_bound attach sid
      (":" ++ toString dn) 3 1
    have hc : Display.launchCount
        (Display.create_browser_session sid dn vp wp vncOk attach
          env0).events =
        if vncOk then
          Display.launchCount
            (Display.attemptLoop attach sid (":" ++ toString dn) 1 3).2
        else 0 := by
      cases vncOk with
      | false => simp [Display.create_browser_session, Display.launchCount]
      | true =>
          cases h : (Display.attemptLoop attach sid
              (":" ++ toString dn) 1 3).1 <;>
            simp [Display.create_browser_session, h, Display.launchCount,
              List.filter_append]
    rw [hc]
    cases vncOk with
    | false => simp
    | true => simpa using hb
  · intro st attach env0 fp hfind ha1 ha2 ha3
    have hrun : Display.create_browser_session fp.1
        ((Routers.SESSION_TO_DISPLAY_NUM.lookup fp.1).getD 0)
        ((Routers.SESSION_TO_VNC_PORT.lookup fp.1).getD 0)
        ((Routers.SESSION_TO_WEB_PORT.lookup fp.1).getD 0)
        true attach env0 =
      { ok := false
        events :=
          [Display.SessionEvent.startVnc
              ((Routers.SESSION_TO_DISPLAY_NUM.lookup fp.1).getD 0)
              ((Routers.SESSION_TO_VNC_PORT.lookup fp.1).getD 0),
           Display.SessionEvent.startProxy
              ((Routers.SESSION_TO_VNC_PORT.lookup fp.1).getD 0)
              ((Routers.SESSION_TO_WEB_PORT.lookup fp.1).getD 0),
           Display.SessionEvent.setDisplayEnv
              (":" ++ toString
                ((Routers.SESSION_TO_DISPLAY_NUM.lookup fp.1).getD 0)),
           Display.SessionEvent.launchAttempt 1
              (":" ++ toString
                ((Routers.SESSION_TO_DISPLAY_NUM.lookup fp.1).getD 0)),
           Display.SessionEvent.backoffSleep 2,
           Display.SessionEvent.launchAttempt 2
              (":" ++ toString
                ((Routers.SESSION_TO_DISPLAY_NUM.lookup fp.1).getD 0)),
           Display.SessionEvent.backoffSleep 4,
           Display.SessionEvent.launchAttempt 3
              (":" ++ toString
                ((Routers.SESSION_TO_DISPLAY_NUM.lookup fp.1).getD 0)),
           Display.SessionEvent.cleanup fp.1,
           Display.SessionEvent.restoreDisplayEnv,
           Display.SessionEvent.cleanup fp.1]
        env := Display.restoreEnv env0
          (some (":" ++ toString
            ((Routers.SESSION_TO_DISPLAY_NUM.lookup fp.1).getD 0))) } := by
      simp [Display.create_browser_session,
        attemptLoop_all_fail attach fp.1
          (":" ++ toString
            ((Routers.SESSION_TO_DISPLAY_NUM.lookup fp.1).getD 0))
          ha1 ha2 ha3]
    refine ⟨by rw [hrun], ?_, ?_, ?_, ?_, ?_⟩ <;>
      (simp only [Routers.pooled_create_session, hfind]
       rw [hrun]
       simp [lookup_setKV_self])

/-- Witness for C5: on the fresh pool with every attach failing, the
handler answers a 500 failure and session_00 with its ports and display
are free again. -/
theorem browser_attach_failure_cleanup_witness :
    (Routers.pooled_create_session Routers.initialPoolState true
        (fun _ => false) none).2.1 =
      Routers.CreateResponse.failure "session start failed" 500 ∧
    (Routers.pooled_create_session Routers.initialPoolState true
        (fun _ => false) none).1.sessionsMap.lookup "session_00" =
      some false ∧
    (Routers.pooled_create_session Routers.initialPoolState true
        (fun _ => false) none).1.usedVnc.lookup
        (toString ((Routers.SESSION_TO_VNC_PORT.lookup "session_00").getD 0))
      = some false ∧
    (Routers.pooled_create_session Routers.initialPoolState true
        (fun _ => false) none).1.usedDisp.lookup
        (toString
          ((Routers.SESSION_TO_DISPLAY_NUM.lookup "session_00").getD 0))
      = some false := by
  have h := browser_attach_failure_cleanup.2 Routers.initialPoolState
    (fun _ => false) none ("session_00", false) (by decide) rfl rfl rfl
  exact ⟨h.2.1, h.2.2.1, h.2.2.2.1, h.2.2.2.2.2⟩

lemma hexChar_isHex : ∀ j, j < 16 → Routers.isHexDigit (Routers.hexChar j) = true := by
  decide

lemma hexDigits_length (k v : Nat) : (Routers.hexDigits k v).length = k := by
  simp [Routers.hexDigits]

lemma hexDigits_all_hex (k v : Nat) :
    ∀ c ∈ Routers.hexDigits k v, Routers.isHexDigit c = true := by
  intro c hc
  simp only [Routers.hexDigits, List.mem_map, List.mem_range] at hc
  obtain ⟨i, _, rfl⟩ := hc
  exact hexChar_isHex _ (Nat.mod_lt _ (by norm_num))

lemma sessionIdFormat_generated (r : Nat) :
    Routers.SessionIdFormat (Routers.generate_session_id r) := by
  refine ⟨(Routers.hexDigits 32 (r % 2 ^ 128)).take 4,
    ((Routers.hexDigits 32 (r % 2 ^ 128)).drop 4).take 4,
    ((Routers.hexDigits 32 (r % 2 ^ 128)).drop 8).take 4,
    ((Routers.hexDigits 32 (r % 2 ^ 128)).drop 12).take 4,
    ?_, ?_, ?_, ?_, ?_, ?_, ?_, ?_, rfl⟩
  · rw [List.length_take, hexDigits_length]; rfl
  · rw [List.length_take, List.length_drop, hexDigits_length]; rfl
  · rw [List.length_take, List.length_drop, hexDigits_length]; rfl
  · rw [List.length_take, List.length_drop, hexDigits_length]; rfl
  · exact List.all_eq_true.mpr fun c hc =>
      hexDigits_all_hex 32 (r % 2 ^ 128) c (List.mem_of_mem_take hc)
  · exact List.all_eq_true.mpr fun c hc =>
      hexDigits_all_hex 32 (r % 2 ^ 128) c
        (List.mem_of_mem_drop (List.mem_of_mem_take hc))
  · exact List.all_eq_true.mpr fun c hc =>
      hexDigits_all_hex 32 (r % 2 ^ 128) c
        (List.mem_of_mem_drop (List.mem_of_mem_take hc))
  · exact List.all_eq_true.mpr fun c hc =>
      hexDigits_all_hex 32 (r % 2 ^ 128) c
        (List.mem_of_mem_drop (List.mem_of_mem_take hc))

/-- C8: in single-session mode, create fails with the 503 already-in-use
error whenever a session exists; otherwise (when the supervisor start
succeeds) it returns a session id built from a fresh 128-bit random draw
and formatted as four dash-separated groups of four lowercase hex digits
(`xxxx-xxxx-xxxx-xxxx`). -/
theorem single_session_create_spec (st : Routers.SingleState) (r : Nat)
    (vncOk : Bool) (attach : Nat → Bool) (env0 : Option String) :
    (∀ sid, st.current = some sid →
      Routers.single_create_session st r vncOk attach env0 =
        (st, Routers.CreateResponse.failure
          "Session is already in use. Only one session is supported." 503)) ∧
    (st.current = none →
      (Display.create_browser_session (Routers.generate_session_id r)
          Routers.BASE_DISPLAY_NUM Routers.BASE_VNC_PORT
          Routers.BASE_WEB_PORT vncOk attach env0).ok = true →
      (Routers.single_create_session st r vncOk attach env0).2 =
        Routers.CreateResponse.success (Routers.generate_session_id r)
          Routers.BASE_VNC_PORT Routers.BASE_WEB_PORT
          Routers.BASE_DISPLAY_NUM) ∧
    Routers.SessionIdFormat (Routers.generate_session_id r) := by
  refine ⟨?_, ?_, sessionIdFormat_generated r⟩
  · intro sid h
    simp [Routers.single_create_session, h]
  · intro h hok
    simp [Routers.single_create_session, h, hok]

/-- Witness for C8 at concrete inputs: with an existing session the
handler answers the 503 already-in-use failure; on the empty state with a
successful start it returns the freshly formatted id, which has the
`xxxx-xxxx-xxxx-xxxx` shape. -/
theorem single_session_create_spec_witness :
    Routers.single_create_session
        { current := some "s", sidToVnc := [], sidToWeb := [],
          sidToDisp := [] } 0 true (fun _ => true) none =
      ({ current := some "s", sidToVnc := [], sidToWeb := [],
         sidToDisp := [] },
       Routers.CreateResponse.failure
         "Session is already in use. Only one session is supported." 503) ∧
    (Routers.single_create_session
        { current := none, sidToVnc := [], sidToWeb := [],
          sidToDisp := [] } 0 true (fun _ => true) none).2 =
      Routers.CreateResponse.success (Routers.generate_session_id 0)
        Routers.BASE_VNC_PORT Routers.BASE_WEB_PORT
        Routers.BASE_DISPLAY_NUM ∧
    Routers.SessionIdFormat (Routers.generate_session_id 0) := by
  have h1 := single_session_create_spec
    { current := some "s", sidToVnc := [], sidToWeb := [], sidToDisp := [] }
    0 true (fun _ => true) none
  have h2 := single_session_create_spec
    { current := none, sidToVnc := [], sidToWeb := [], sidToDisp := [] }
    0 true (fun _ => true) none
  exact ⟨h1.1 "s" rfl, h2.2.1 rfl (by decide), h2.2.2⟩

lemma rowsOf_append (a b : List Ingest.IngestEvent) :
    Ingest.requestRowsOf (a ++ b) =
      Ingest.requestRowsOf a ++ Ingest.requestRowsOf b := by
  simp [Ingest.requestRowsOf, List.filterMap_append]

lemma progressOf_append (a b : List Ingest.IngestEvent) :
    Ingest.progressInsertsOf (a ++ b) =
      Ingest.progressInsertsOf a ++ Ingest.progressInsertsOf b := by
  simp [Ingest.progressInsertsOf, List.filterMap_append]

lemma rowsOf_perPayload (b : String) (tot i : Nat) (rid : String)
    (p : Ingest.Payload) :
    Ingest.requestRowsOf (Ingest.perPayloadEvents b tot i rid p) =
      [Ingest.requestRowOf b tot i rid p] := rfl

lemma progressOf_perPayload (b : String) (tot i : Nat) (rid : String)
    (p : Ingest.Payload) :
    Ingest.progressInsertsOf (Ingest.perPayloadEvents b tot i rid p) =
      [(rid, Ingest.RequestStatus.created)] := rfl

lemma rowsOf_awaitAcks {α : Type} (f : α → Nat) (l : List α) :
    Ingest.requestRowsOf
      (l.map (fun x => Ingest.IngestEvent.awaitAck (f x))) = [] := by
  induction l with
  | nil => rfl
  | cons a t ih =>
      simp only [List.map_cons, Ingest.requestRowsOf, List.filterMap_cons]
        at ih ⊢
      exact ih

lemma progressOf_awaitAcks {α : Type} (f : α → Nat) (l : List α) :
    Ingest.progressInsertsOf
      (l.map (fun x => Ingest.IngestEvent.awaitAck (f x))) = [] := by
  induction l with
  | nil => rfl
  | cons a t ih =>
      simp only [List.map_cons, Ingest.progressInsertsOf,
        List.filterMap_cons] at ih ⊢
      exact ih

lemma ingestLoop_facts (b : String) (ids : Nat → String) (total : Nat) :
    ∀ (l : List Ingest.Payload) (i : Nat),
      (Ingest.requestRowsOf (Ingest.ingestLoop b ids total i l)).length =
        l.length ∧
      (Ingest.requestRowsOf (Ingest.ingestLoop b ids total i l)).map
          (fun row => row.sequence_no) =
        (List.range l.length).map (fun j => toString (i + j + 1)) ∧
      (Ingest.requestRowsOf (Ingest.ingestLoop b ids total i l)).map
          (fun row => row.request_id) =
        (List.range l.length).map (fun j => ids (i + j)) ∧
      (Ingest.requestRowsOf (Ingest.ingestLoop b ids total i l)).map
          (fun row => row.patient_name) =
        l.map (fun p => p.patientfirstname ++ " " ++ p.patientlastname) ∧
      Ingest.progressInsertsOf (Ingest.ingestLoop b ids total i l) =
        (Ingest.requestRowsOf (Ingest.ingestLoop b ids total i l)).map
          (fun row => (row.request_id, Ingest.RequestStatus.created)) := by
  intro l
  induction l with
  | nil => intro i; exact ⟨rfl, rfl, rfl, rfl, rfl⟩
  | cons p rest ih =>
      intro i
      obtain ⟨ih1, ih2, ih3, ih4, ih5⟩ := ih (i + 1)
      simp only [Ingest.ingestLoop, rowsOf_append, rowsOf_perPayload,
        progressOf_append, progressOf_perPayload, List.singleton_append,
        List.length_cons, List.map_cons, List.length_map]
      refine ⟨by rw [ih1], ?_, ?_, ?_, ?_⟩
      · rw [List.range_succ_eq_map, List.map_cons, List.map_map, ih2]
        refine congrArg₂ _ (by simp [Ingest.requestRowOf]) ?_
        refine List.map_congr_left (fun j _ => ?_)
        simp only [Function.comp_apply, Nat.succ_eq_add_one]
        congr 1
        omega
      · rw [List.range_succ_eq_map, List.map_cons, List.map_map, ih3]
        refine congrArg₂ _ (by simp [Ingest.requestRowOf]) ?_
        refine List.map_congr_left (fun j _ => ?_)
        simp only [Function.comp_apply, Nat.succ_eq_add_one]
        congr 1
        omega
      · rw [ih4]
        rfl
      · rw [ih5]
        rfl

lemma resultLoop_all_acked (acks : Nat → Bool) :
    ∀ k i, (∀ j, i ≤ j → j < i + k → acks j = true) →
      Ingest.resultLoop acks i k =
        ((List.range k).map (fun j => Ingest.IngestEvent.awaitAck (i + j)),
         true) := by
  intro k
  induction k with
  | zero => intro i _; rfl
  | succ n ih =>
      intro i h
      have hi : acks i = true := h i le_rfl (by omega)
      simp only [Ingest.resultLoop, hi, if_true]
      rw [ih (i + 1) (fun j hj1 hj2 => h j (by omega) (by omega))]
      refine Prod.ext ?_ rfl
      simp only [List.range_succ_eq_map, List.map_cons, List.map_map]
      refine congrArg₂ _ (by norm_num) ?_
      refine List.map_congr_left (fun j _ => ?_)
      simp only [Function.comp_apply, Nat.succ_eq_add_one]
      congr 1
      omega

/-- C3: for a non-empty batch of N payloads (with a fresh injective id
supply for `uuid.uuid4()`), `ingest_batch` inserts exactly N request rows
whose stringified sequence numbers are 1..N in input order, with N
pairwise distinct freshly drawn request ids, and one RequestProgress
upsert in status Created per row (same id, same order); and when the
broker acknowledges all N publishes, the batch status is set to
`published` strictly after all N acknowledgement waits. -/
theorem ingest_batch_spec (batch_id : String) (ids : Nat → String)
    (acks : Nat → Bool) (requests : List Ingest.Payload)
    (_hne : requests ≠ [])
    (hinj : Function.Injective ids)
    (hacks : ∀ i, 1 ≤ i → i ≤ requests.length → acks i = true) :
    (Ingest.requestRowsOf
        (Ingest.ingest_batch batch_id ids acks requests)).length =
      requests.length ∧
    (Ingest.requestRowsOf
        (Ingest.ingest_batch batch_id ids acks requests)).map
        (fun row => row.sequence_no) =
      (List.range requests.length).map (fun j => toString (j + 1)) ∧
    (Ingest.requestRowsOf
        (Ingest.ingest_batch batch_id ids acks requests)).map
        (fun row => row.request_id) =
      (List.range requests.length).map ids ∧
    ((Ingest.requestRowsOf
        (Ingest.ingest_batch batch_id ids acks requests)).map
        (fun row => row.request_id)).Nodup ∧
    (Ingest.requestRowsOf
        (Ingest.ingest_batch batch_id ids acks requests)).map
        (fun row => row.patient_name) =
      requests.map
        (fun p => p.patientfirstname ++ " " ++ p.patientlastname) ∧
    Ingest.progressInsertsOf (Ingest.ingest_batch batch_id ids acks requests) =
      (Ingest.requestRowsOf
          (Ingest.ingest_batch batch_id ids acks requests)).map
        (fun row => (row.request_id, Ingest.RequestStatus.created)) ∧
    (∃ pre, Ingest.ingest_batch batch_id ids acks requests =
        pre ++ [Ingest.IngestEvent.setBatchStatus batch_id "published"] ∧
      ∀ i, 1 ≤ i → i ≤ requests.length →
        Ingest.IngestEvent.awaitAck i ∈ pre) := by
  have hra := resultLoop_all_acked acks requests.length 1
    (fun j hj1 hj2 => hacks j hj1 (by omega))
  have hloop := ingestLoop_facts batch_id ids requests.length requests 0
  obtain ⟨hl1, hl2, hl3, hl4, hl5⟩ := hloop
  have htr : Ingest.ingest_batch batch_id ids acks requests =
      Ingest.IngestEvent.insertBatchMetadata batch_id "pending_publish"
        :: Ingest.ingestLoop batch_id ids requests.length 0 requests
        ++ (List.range requests.length).map
            (fun j => Ingest.IngestEvent.awaitAck (1 + j))
        ++ [Ingest.IngestEvent.setBatchStatus batch_id "published"] := by
    simp [Ingest.ingest_batch, hra]
  have hrows : Ingest.requestRowsOf
      (Ingest.ingest_batch batch_id ids acks requests) =
      Ingest.requestRowsOf
        (Ingest.ingestLoop batch_id ids requests.length 0 requests) := by
    rw [htr, rowsOf_append, rowsOf_append,
      rowsOf_awaitAcks (fun j => 1 + j) (List.range requests.length)]
    simp [Ingest.requestRowsOf, List.filterMap_cons]
  have hprog : Ingest.progressInsertsOf
      (Ingest.ingest_batch batch_id ids acks requests) =
      Ingest.progressInsertsOf
        (Ingest.ingestLoop batch_id ids requests.length 0 requests) := by
    rw [htr, progressOf_append, progressOf_append,
      progressOf_awaitAcks (fun j => 1 + j) (List.range requests.length)]
    simp [Ingest.progressInsertsOf, List.filterMap_cons]
  refine ⟨?_, ?_, ?_, ?_, ?_, ?_, ?_⟩
  · rw [hrows, hl1]
  · rw [hrows, hl2]
    exact List.map_congr_left (fun j _ => by simp)
  · rw [hrows, hl3]
    exact List.map_congr_left (fun j _ => by simp)
  · rw [hrows, hl3]
    have hz : (List.range requests.length).map (fun j => ids (0 + j)) =
        (List.range requests.length).map ids :=
      List.map_congr_left (fun j _ => by simp)
    rw [hz]
    exact (List.nodup_range requests.length).map hinj
  · rw [hrows, hl4]
  · rw [hrows, hprog, hl5]
  · refine ⟨Ingest.IngestEvent.insertBatchMetadata batch_id "pending_publish"
        :: Ingest.ingestLoop batch_id ids requests.length 0 requests
        ++ (List.range requests.length).map
            (fun j => Ingest.IngestEvent.awaitAck (1 + j)), htr, ?_⟩
    intro i hi1 hi2
    refine List.mem_append.mpr (Or.inr ?_)
    refine List.mem_map.mpr ⟨i - 1, List.mem_range.mpr (by omega), ?_⟩
    congr 1
    omega


/-- Witness for C3: a one-payload batch with a concrete injective id
supply and an always-acknowledging broker yields one request row with
sequence number 1 and commits the batch after the acknowledgement wait. -/
theorem ingest_batch_spec_witness :
    (Ingest.requestRowsOf
        (Ingest.ingest_batch "b" (fun i => String.mk (List.replicate i 'a'))
          (fun _ => true) [Ingest.samplePayload])).length = 1 ∧
    (Ingest.requestRowsOf
        (Ingest.ingest_batch "b" (fun i => String.mk (List.replicate i 'a'))
          (fun _ => true) [Ingest.samplePayload])).map
        (fun row => row.sequence_no) =
      (List.range 1).map (fun j => toString (j + 1)) ∧
    (∃ pre, Ingest.ingest_batch "b"
          (fun i => String.mk (List.replicate i 'a'))
          (fun _ => true) [Ingest.samplePayload] =
        pre ++ [Ingest.IngestEvent.setBatchStatus "b" "published"] ∧
      ∀ i, 1 ≤ i → i ≤ 1 → Ingest.IngestEvent.awaitAck i ∈ pre) := by
  have hinj : Function.Injective
      (fun i => String.mk (List.replicate i 'a')) := by
    intro a b h
    have h2 : List.replicate a 'a' = List.replicate b 'a' := by
      injection h
    have h3 := congrArg List.length h2
    simpa using h3
  have h := ingest_batch_spec "b" (fun i => String.mk (List.replicate i 'a'))
    (fun _ => true) [Ingest.samplePayload] (by simp) hinj
    (fun _ _ _ => rfl)
  exact ⟨h.1, h.2.1, h.2.2.2.2.2.2⟩

lemma processed_ne_inflight (R : String) :
    ("processed:" ++ R : String) ≠ "inflight:" ++ R := by
  intro h
  have h2 := congrArg String.length h
  rw [String.length_append, String.length_append] at h2
  have hp : ("processed:" : String).length = 10 := rfl
  have hi : ("inflight:" : String).length = 9 := rfl
  omega

/-- C1: processing a delivered work message whose planner call returns
2xx sets the processed marker for its dedup key before acking (the action
trace is POST, mark processed, ack, release inflight, in that order), and
a later delivery with the same req_id within the dedup TTL is acked with
no planner POST — so two deliveries with the same req_id produce exactly
one POST and two acks. -/
theorem consumer_idempotent_dispatch (c : Dedup.InMemoryCache)
    (m1 m2 : Consumer.PubSubMessage) (b1 b2 : Consumer.DecodedBody)
    (R : String) (t1 t2 : Nat) (st2 : Option Nat)
    (hb1 : m1.body = some b1) (hb2 : m2.body = some b2)
    (hr1 : Consumer.reqIdFor m1 = R) (hr2 : Consumer.reqIdFor m2 = R)
    (hp : Dedup.cacheGet c ("processed:" ++ R) t1 = none)
    (hcl : (Dedup.cacheSetNxEx c ("inflight:" ++ R) "1"
      Consumer.INFLIGHT_TTL t1).2 = true)
    (ht : t2 ≤ t1 + Consumer.DEDUP_TTL) :
    (Consumer.handle_message c m1 t1 (some 200)).2 =
      [Consumer.Action.post
        { request_id := b1.request_id, patient_data := b1.payload,
          batch_id := b1.batch_id },
       Consumer.Action.markProcessed ("processed:" ++ R),
       Consumer.Action.ack,
       Consumer.Action.clearInflight ("inflight:" ++ R)] ∧
    (Consumer.handle_message (Consumer.handle_message c m1 t1 (some 200)).1
        m2 t2 st2).2 = [Consumer.Action.ack] ∧
    Consumer.countPosts
      ((Consumer.handle_message c m1 t1 (some 200)).2 ++
       (Consumer.handle_message
          (Consumer.handle_message c m1 t1 (some 200)).1 m2 t2 st2).2) =
      1 := by
  have h200 : (200 ≤ 200 ∧ 200 < 300) := by omega
  have h1 : Consumer.handle_message c m1 t1 (some 200) =
      (Dedup.cacheDelete
        (Dedup.cacheSetEx
          (Dedup.cacheSetNxEx c ("inflight:" ++ R) "1"
            Consumer.INFLIGHT_TTL t1).1
          ("processed:" ++ R) Consumer.DEDUP_TTL "processed" t1)
        ("inflight:" ++ R),
       [Consumer.Action.post
         { request_id := b1.request_id, patient_data := b1.payload,
           batch_id := b1.batch_id },
        Consumer.Action.markProcessed ("processed:" ++ R),
        Consumer.Action.ack,
        Consumer.Action.clearInflight ("inflight:" ++ R)]) := by
    simp [Consumer.handle_message, hb1, hr1, hp, hcl, h200]
  have hget : Dedup.cacheGet
      (Dedup.cacheDelete
        (Dedup.cacheSetEx
          (Dedup.cacheSetNxEx c ("inflight:" ++ R) "1"
            Consumer.INFLIGHT_TTL t1).1
          ("processed:" ++ R) Consumer.DEDUP_TTL "processed" t1)
        ("inflight:" ++ R)) ("processed:" ++ R) t2 = some "processed" := by
    have hne := processed_ne_inflight R
    have hnotlt : ¬ (t1 + Consumer.DEDUP_TTL < t2) := by omega
    unfold Dedup.cacheGet Dedup.isExpired Dedup.cacheDelete Dedup.cacheSetEx
    simp only [lookup_delKV_ne _ _ _ hne, lookup_setKV_self, hnotlt,
      decide_eq_true_eq, if_false, decide_False]
    rfl
  have h2 : Consumer.handle_message
      (Consumer.handle_message c m1 t1 (some 200)).1 m2 t2 st2 =
      ((Consumer.handle_message c m1 t1 (some 200)).1,
       [Consumer.Action.ack]) := by
    rw [h1]
    simp [Consumer.handle_message, hb2, hr2, hget]
  refine ⟨by rw [h1], by rw [h2], ?_⟩
  rw [h2, h1]
  simp [Consumer.countPosts]

/-- Witness for C1 at concrete inputs: two messages with req_id
attribute R, the first processed at time 5 with planner status 200, the
second delivered at time 17; the traces are as stated and exactly one
POST occurs. -/
theorem consumer_idempotent_dispatch_witness :
    (Consumer.handle_message Dedup.emptyCache
      { message_id := "m1", attributes := [("req_id", "R")],
        body := some { request_id := some "R", payload := some "pd",
                       batch_id := some "b" } } 5 (some 200)).2 =
      [Consumer.Action.post
        { request_id := some "R", patient_data := some "pd",
          batch_id := some "b" },
       Consumer.Action.markProcessed ("processed:" ++ "R"),
       Consumer.Action.ack,
       Consumer.Action.clearInflight ("inflight:" ++ "R")] ∧
    (Consumer.handle_message
      (Consumer.handle_message Dedup.emptyCache
        { message_id := "m1", attributes := [("req_id", "R")],
          body := some { request_id := some "R", payload := some "pd",
                         batch_id := some "b" } } 5 (some 200)).1
      { message_id := "m2", attributes := [("req_id", "R")],
        body := some { request_id := some "R", payload := some "pd",
                       batch_id := some "b" } } 17 (some 500)).2 =
      [Consumer.Action.ack] ∧
    Consumer.countPosts
      ((Consumer.handle_message Dedup.emptyCache
        { message_id := "m1", attributes := [("req_id", "R")],
          body := some { request_id := some "R", payload := some "pd",
                         batch_id := some "b" } } 5 (some 200)).2 ++
       (Consumer.handle_message
        (Consumer.handle_message Dedup.emptyCache
          { message_id := "m1", attributes := [("req_id", "R")],
            body := some { request_id := some "R", payload := some "pd",
                           batch_id := some "b" } } 5 (some 200)).1
        { message_id := "m2", attributes := [("req_id", "R")],
          body := some { request_id := some "R", payload := some "pd",
                         batch_id := some "b" } } 17 (some 500)).2) = 1 :=
  consumer_idempotent_dispatch Dedup.emptyCache
    { message_id := "m1", attributes := [("req_id", "R")],
      body := some { request_id := some "R", payload := some "pd",
                     batch_id := some "b" } }
    { message_id := "m2", attributes := [("req_id", "R")],
      body := some { request_id := some "R", payload := some "pd",
                     batch_id := some "b" } }
    { request_id := some "R", payload := some "pd", batch_id := some "b" }
    { request_id := some "R", payload := some "pd", batch_id := some "b" }
    "R" 5 17 (some 500) rfl rfl rfl rfl rfl rfl (by decide)
